import Mathlib

/-!
Verification of the guacd tunnel translator of cockpit-guacamole
(`src/package-install.js`, `CockpitTunnel`): wire-format encoding,
handshake negotiation, liveness timers and the tunnel state machine,
embedded as pure Lean functions over an explicit tunnel-state record.
-/

namespace Guac

/-- Tunnel states (`Guacamole.Tunnel.State` of the external
guacamole-common-js library, as the spec's §3 Tunnel State set). -/
inductive TState where
  | CONNECTING
  | OPEN
  | CLOSED
  | UNSTABLE
  deriving DecidableEq, Repr

/-- A status reported on closure: numeric code plus human-readable message
(`Guacamole.Status` of guacamole-common-js, modelled at its interface). -/
structure Status where
  code : Int
  message : String
  deriving DecidableEq, Repr

/-- Modelled from the spec: `Guacamole.Status.prototype.isError` of the
external guacamole-common-js library — a status is an error exactly when
its code lies outside the success range `0..0xFF`. -/
def Status.isError (s : Status) : Bool :=
  s.code < 0 || s.code > 0xFF

/-- The `Guacamole.Status.Code.SUCCESS` external library constant. -/
def SUCCESS_CODE : Int := 0

/-- The `Guacamole.Status.Code.SERVER_ERROR` external library constant,
the spec's generic server-error code. -/
def SERVER_ERROR_CODE : Int := 0x0200

/-- The `Guacamole.Status.Code.UPSTREAM_TIMEOUT` external library constant,
the spec's distinguished upstream-timeout code. -/
def UPSTREAM_TIMEOUT_CODE : Int := 0x0202

/-- JavaScript `a || d` for an optional string: the default replaces
`undefined` and the (falsy) empty string. -/
def jsOrStr (v : Option String) (d : String) : String :=
  match v with
  | some s => if s = "" then d else s
  | none => d

/-- JavaScript `a || d` for an optional number: the default replaces
`undefined` and the (falsy) number `0`. -/
def jsOrNat (v : Option Nat) (d : Nat) : Nat :=
  match v with
  | some n => if n = 0 then d else n
  | none => d

/-- JavaScript truthiness of an optional string (`undefined` and `""`
are falsy). -/
def optTruthy : Option String → Bool
  | none => false
  | some s => s ≠ ""

/-- JavaScript `a || b` on two optional strings, as in
`options.problem || options.reason`. -/
def jsOrOpt (a b : Option String) : Option String :=
  if optTruthy a then a else b

/-- Modelled from the spec: the JavaScript builtin `parseInt` (external to
the repository) restricted to base-10 input as the daemon sends it — skip
leading whitespace, read an optional sign and then leading decimal digits,
ignoring any trailing characters; `none` stands for `NaN` (no digits, or a
missing argument). -/
def jsParseInt (s : Option String) : Option Int :=
  match s with
  | none => none
  | some str =>
    let t := str.toList.dropWhile (fun c => c.isWhitespace)
    let signed : Bool × List Char :=
      match t with
      | '-' :: r => (true, r)
      | '+' :: r => (false, r)
      | _ => (false, t)
    let digits := signed.2.takeWhile (fun c => c.isDigit)
    if digits.isEmpty then none
    else
      let n : Nat := digits.foldl (fun a c => a * 10 + (c.toNat - '0'.toNat)) 0
      some (if signed.1 then -(n : Int) else (n : Int))

/-- The error status code derived from an `error` instruction's params:
`parseInt(params[1]) || Guacamole.Status.Code.SERVER_ERROR` — the fallback
applies when `parseInt` yields `NaN` or the falsy number `0`. -/
def errorStatusCode (params : List String) : Int :=
  match jsParseInt (params[1]?) with
  | some n => if n = 0 then SERVER_ERROR_CODE else n
  | none => SERVER_ERROR_CODE

/-- The error message derived from an `error` instruction's params:
`params[0] || 'Handshake error'`. -/
def errorStatusMessage (params : List String) : String :=
  jsOrStr (params[0]?) "Handshake error"

/-- Connection Settings (§3): the record handed to `setConnectionSettings`
before connecting. `none` stands for an absent (JS `undefined`) field. -/
structure ConnectionSettings where
  hostname : Option String := none
  port : Option Nat := none
  domain : Option String := none
  username : Option String := none
  password : Option String := none
  width : Option Nat := none
  height : Option Nat := none
  dpi : Option Nat := none
  colorDepth : Option String := none
  security : Option String := none
  ignoreCert : Option Bool := none
  enableFontSmoothing : Option Bool := none
  resizeMethod : Option String := none
  protocol : Option String := none
  guacdPort : Option Nat := none
  deriving DecidableEq, Repr

/-- Connection Settings with every field absent. -/
def emptySettings : ConnectionSettings := {}

/-- The accumulating loop body of `formatInstruction`: for each element,
prepend `,` when the index is positive, then append `<length>.<value>`.
Mirrors the `for` loop of the source. -/
def formatBody : List String → Nat → String → String
  | [], _, acc => acc
  | v :: rest, i, acc =>
      formatBody rest (i + 1)
        (acc ++ (if i > 0 then "," else "") ++ toString v.length ++ "." ++ v)

/-- Function `formatInstruction` (source lines 367–376): length-prefix every element,
comma-separate them, terminate with `;`. -/
def formatInstruction (elements : List String) : String :=
  formatBody elements 0 "" ++ ";"

/-- One encoded element as the spec words it: `<length>.<value>`, the length
being the element's character count. -/
def encElement (v : String) : String :=
  toString v.length ++ "." ++ v

/-- Joining a list of strings with `,`, as the spec's
"elements joined by `,`". -/
def joinComma : List String → String
  | [] => ""
  | [x] => x
  | x :: y :: xs => x ++ "," ++ joinComma (y :: xs)

/-- The observable state of one `CockpitTunnel` instance. Private closure
variables of the source become fields; the consumer-facing callbacks and the
transport writes become append-only event logs: `writes` records every
`channel.send`, `errors` every `onerror` invocation, `states` every
`onstatechange` invocation, `instructions` every `oninstruction` invocation,
and `closedStatus` the status a successful `closeTunnel` reported. -/
structure Tunnel where
  settings : ConnectionSettings
  state : TState
  handshakeComplete : Bool
  uuid : Option String
  channel : Bool
  receiveTimerArmed : Bool
  unstableTimerArmed : Bool
  endpointPort : Option Nat
  closedStatus : Option Status
  writes : List String
  errors : List Status
  states : List TState
  instructions : List (String × List String)
  deriving DecidableEq, Repr

/-- A fresh tunnel as constructed by `new CockpitTunnel()` after
`setConnectionSettings(s)`: the `Guacamole.Tunnel` base constructor starts
in state `CONNECTING` with no uuid; no channel, timers or events exist yet. -/
def initialTunnel (s : ConnectionSettings) : Tunnel :=
  { settings := s
    state := .CONNECTING
    handshakeComplete := false
    uuid := none
    channel := false
    receiveTimerArmed := false
    unstableTimerArmed := false
    endpointPort := none
    closedStatus := none
    writes := []
    errors := []
    states := []
    instructions := [] }

/-- Modelled from the spec: `Guacamole.Tunnel.prototype.isConnected` of the
external guacamole-common-js base class — connected exactly in the `OPEN`
and `UNSTABLE` states (§4.4: sends are dropped outside these states). -/
def isConnected (t : Tunnel) : Bool :=
  t.state = TState.OPEN || t.state = TState.UNSTABLE

/-- Modelled from the spec: `Guacamole.Tunnel.prototype.setState` of the
external guacamole-common-js base class — record the new state and fire the
state-change callback only when the state actually changes (§6: a
state-change callback invoked on every Tunnel State transition). -/
def setState (t : Tunnel) (s : TState) : Tunnel :=
  if s ≠ t.state then
    { t with state := s, states := t.states ++ [s] }
  else t

/-- Function `sendRaw` (source lines 385–389): write to the cockpit channel only when
it exists and is valid. -/
def sendRaw (t : Tunnel) (data : String) : Tunnel :=
  if t.channel then { t with writes := t.writes ++ [data] } else t

/-- Function `clearTimers` (source lines 430–435): cancel both timers. -/
def clearTimers (t : Tunnel) : Tunnel :=
  { t with receiveTimerArmed := false, unstableTimerArmed := false }

/-- Function `closeTunnel` (source lines 445–465): cancel the timers; do nothing
further if already `CLOSED`; otherwise fire `onerror` when the status is an
error, transition to `CLOSED`, and close the channel. `closedStatus` records
the status the closure reported. -/
def closeTunnel (t : Tunnel) (status : Status) : Tunnel :=
  let t := clearTimers t
  if t.state = TState.CLOSED then t
  else
    let t := if status.isError then { t with errors := t.errors ++ [status] } else t
    let t := { t with closedStatus := some status }
    let t := setState t TState.CLOSED
    if t.channel then { t with channel := false } else t

/-- Function `resetTimers` (source lines 397–423): clear both timers, restore `OPEN`
from `UNSTABLE`, and re-arm both timers while connected. Firing of an armed
timer is a separate event (`Event.unstableFire` / `Event.receiveFire`). -/
def resetTimers (t : Tunnel) : Tunnel :=
  let t := { t with receiveTimerArmed := false, unstableTimerArmed := false }
  let t := if t.state = TState.UNSTABLE then setState t TState.OPEN else t
  let t := if isConnected t then { t with unstableTimerArmed := true } else t
  let t := if isConnected t then { t with receiveTimerArmed := true } else t
  t

/-- The `paramMap` object literal of `sendHandshakeReply` (source lines
544–620), as an association list in source order. -/
def paramMap (settings : ConnectionSettings) : List (String × String) :=
  [ ("hostname", jsOrStr settings.hostname "localhost")
  , ("port", toString (jsOrNat settings.port 3389))
  , ("domain", jsOrStr settings.domain "")
  , ("username", jsOrStr settings.username "")
  , ("password", jsOrStr settings.password "")
  , ("width", toString (jsOrNat settings.width 1024))
  , ("height", toString (jsOrNat settings.height 768))
  , ("dpi", toString (jsOrNat settings.dpi 96))
  , ("initial-program", "")
  , ("color-depth", jsOrStr settings.colorDepth "")
  , ("disable-audio", "")
  , ("enable-printing", "")
  , ("printer-name", "")
  , ("enable-drive", "")
  , ("drive-name", "")
  , ("drive-path", "")
  , ("create-drive-path", "")
  , ("disable-download", "")
  , ("disable-upload", "")
  , ("console", "")
  , ("console-audio", "")
  , ("server-layout", "")
  , ("security", jsOrStr settings.security "any")
  , ("ignore-cert", if settings.ignoreCert = some false then "" else "true")
  , ("disable-auth", "")
  , ("remote-app", "")
  , ("remote-app-dir", "")
  , ("remote-app-args", "")
  , ("static-channels", "")
  , ("client-name", "cockpit-guacamole")
  , ("enable-wallpaper", "")
  , ("enable-theming", "")
  , ("enable-font-smoothing", if settings.enableFontSmoothing = some false then "" else "true")
  , ("enable-full-window-drag", "")
  , ("enable-desktop-composition", "")
  , ("enable-menu-animations", "")
  , ("disable-bitmap-caching", "")
  , ("disable-offscreen-caching", "")
  , ("disable-glyph-caching", "")
  , ("preconnection-id", "")
  , ("preconnection-blob", "")
  , ("timezone", "")
  , ("enable-sftp", "")
  , ("sftp-hostname", "")
  , ("sftp-host-key", "")
  , ("sftp-port", "")
  , ("sftp-username", "")
  , ("sftp-password", "")
  , ("sftp-private-key", "")
  , ("sftp-passphrase", "")
  , ("sftp-directory", "")
  , ("sftp-root-directory", "")
  , ("sftp-server-alive-interval", "")
  , ("recording-path", "")
  , ("recording-name", "")
  , ("recording-exclude-output", "")
  , ("recording-exclude-mouse", "")
  , ("recording-exclude-touch", "")
  , ("recording-include-keys", "")
  , ("create-recording-path", "")
  , ("resize-method", jsOrStr settings.resizeMethod "display-update")
  , ("enable-audio-input", "")
  , ("enable-touch", "")
  , ("read-only", "")
  , ("gateway-hostname", "")
  , ("gateway-port", "")
  , ("gateway-domain", "")
  , ("gateway-username", "")
  , ("gateway-password", "")
  , ("load-balance-info", "")
  , ("disable-copy", "")
  , ("disable-paste", "")
  , ("force-lossless", "")
  , ("normalize-clipboard", "")
  , ("timeout", "") ]

/-- Modelled from the spec: the JavaScript builtin
`String.prototype.startsWith` (external to the repository) — does the first
string begin with the second as a character prefix. -/
def jsStartsWith (s pre : String) : Bool :=
  s.toList.take pre.toList.length == pre.toList

/-- The argument-mapping lambda of `sendHandshakeReply` (source lines
622–627): echo `VERSION_`-prefixed names verbatim; otherwise look the name
up in `paramMap`, defaulting to the empty string when it is not a key. -/
def connectValue (settings : ConnectionSettings) (argName : String) : String :=
  if jsStartsWith argName "VERSION_" then argName
  else
    match (paramMap settings).lookup argName with
    | some v => v
    | none => ""

/-- Function `sendHandshakeReply` (source lines 521–630): on `args`, send `size`,
`audio`, `video`, `image` and the positionally aligned `connect`. -/
def sendHandshakeReply (t : Tunnel) (serverArgNames : List String) : Tunnel :=
  let settings := t.settings
  let width := jsOrNat settings.width 1024
  let height := jsOrNat settings.height 768
  let dpi := jsOrNat settings.dpi 96
  let t := sendRaw t (formatInstruction ["size", toString width, toString height, toString dpi])
  let t := sendRaw t (formatInstruction ["audio"])
  let t := sendRaw t (formatInstruction ["video"])
  let t := sendRaw t (formatInstruction ["image", "image/png", "image/jpeg", "image/webp"])
  let connectArgs := serverArgNames.map (connectValue settings)
  sendRaw t (formatInstruction ("connect" :: connectArgs))

/-- Function `processInstruction` (source lines 479–510): during the handshake,
handle `args`, `ready` and `error` and ignore everything else; afterwards,
forward every instruction to `oninstruction`. -/
def processInstruction (t : Tunnel) (opcode : String) (params : List String) : Tunnel :=
  if !t.handshakeComplete then
    if opcode = "args" then
      sendHandshakeReply t params
    else if opcode = "ready" then
      let t := { t with handshakeComplete := true }
      let t :=
        match params[0]? with
        | some p0 => { t with uuid := some p0 }
        | none => t
      let t := setState t TState.OPEN
      resetTimers t
    else if opcode = "error" then
      closeTunnel t ⟨errorStatusCode params, errorStatusMessage params⟩
    else t
  else
    { t with instructions := t.instructions ++ [(opcode, params)] }

/-- The channel `message` handler (source lines 655–659): reset the timers
once the handshake is complete, then let the parser deliver each decoded
instruction to `processInstruction`. The external `Guacamole.Parser` is
modelled at its interface: one delivery yields the list of instructions it
decodes from the received data. -/
def onMessage (t : Tunnel) (instrs : List (String × List String)) : Tunnel :=
  let t := if t.handshakeComplete then resetTimers t else t
  instrs.foldl (fun t i => processInstruction t i.1 i.2) t

/-- The channel `close` handler (source lines 661–671): derive the problem
as `options.problem || options.reason`; a truthy problem on a not-yet-closed
tunnel is a server-error closure, anything else a clean success closure. -/
def onClose (t : Tunnel) (problem reason : Option String) : Tunnel :=
  let p := jsOrOpt problem reason
  if optTruthy p && !(t.state = TState.CLOSED) then
    closeTunnel t ⟨SERVER_ERROR_CODE, "Connection closed: " ++ p.getD ""⟩
  else
    closeTunnel t ⟨SUCCESS_CODE, ""⟩

/-- Function `connect` (source lines 639–677): reset the handshake flag, enter
`CONNECTING`, open the channel to `guacdPort || 4822`, and send `select`
with `protocol || 'rdp'`. -/
def connect (t : Tunnel) : Tunnel :=
  let t := { t with handshakeComplete := false }
  let t := setState t TState.CONNECTING
  let t := { t with channel := true,
                    endpointPort := some (jsOrNat t.settings.guacdPort 4822) }
  sendRaw t (formatInstruction ["select", jsOrStr t.settings.protocol "rdp"])

/-- Function `sendMessage` (source lines 686–697): drop the send unless connected,
drop empty element lists, otherwise encode and write. -/
def sendMessage (t : Tunnel) (elements : List String) : Tunnel :=
  if !isConnected t then t
  else if elements.length = 0 then t
  else sendRaw t (formatInstruction elements)

/-- Function `disconnect` (source lines 702–714): best-effort send `disconnect` while
connected, then close with a success status. -/
def disconnect (t : Tunnel) : Tunnel :=
  let t := if isConnected t then sendRaw t (formatInstruction ["disconnect"]) else t
  closeTunnel t ⟨SUCCESS_CODE, "Manually closed."⟩

/-- The asynchronous events one live tunnel instance can experience after
`connect`: an inbound data delivery, the transport close notification, the
firing of an armed liveness timer, and the consumer-driven `sendMessage` and
`disconnect` calls. -/
inductive Event where
  | message (instrs : List (String × List String))
  | chanClose (problem reason : Option String)
  | unstableFire
  | receiveFire
  | sendMsg (elements : List String)
  | doDisconnect
  deriving Repr

/-- One event step. Transport events (`message`, `chanClose`) are delivered
only while the channel is open — a cockpit channel that `closeTunnel` has
closed raises no further handler invocations (§5: no handler fires after
`CLOSED`). A timer fires only while armed; firing consumes it. -/
def step (t : Tunnel) : Event → Tunnel
  | .message instrs => if t.channel then onMessage t instrs else t
  | .chanClose problem reason => if t.channel then onClose t problem reason else t
  | .unstableFire =>
      if t.unstableTimerArmed then
        setState { t with unstableTimerArmed := false } TState.UNSTABLE
      else t
  | .receiveFire =>
      if t.receiveTimerArmed then
        closeTunnel { t with receiveTimerArmed := false }
          ⟨UPSTREAM_TIMEOUT_CODE, "Server timeout."⟩
      else t
  | .sendMsg elements => sendMessage t elements
  | .doDisconnect => disconnect t

/-- Running a sequence of events. -/
def run (t : Tunnel) (es : List Event) : Tunnel :=
  es.foldl step t

/-- The tail of a comma join: every element prefixed with `,`. -/
def joinTail : List String → String
  | [] => ""
  | x :: xs => "," ++ x ++ joinTail xs

/-- The Connection Settings of the spec's worked handshake example:
`hostname "localhost"`, `port 3389`, `width 1024`. -/
def demoSettings : ConnectionSettings :=
  { hostname := some "localhost", port := some 3389, width := some 1024 }

/-- A concrete tunnel that has connected and completed the handshake
(received `ready`): state `OPEN`, both timers armed, channel open. -/
def openTunnel : Tunnel :=
  processInstruction (connect (initialTunnel demoSettings)) "ready" ["demo-session-id"]

/-- A concrete tunnel that has reached `CLOSED` (transport closed with a
problem while connecting). -/
def closedTunnel : Tunnel :=
  step (connect (initialTunnel emptySettings)) (.chanClose (some "terminated") none)

section Theorems

/-- Every element of the handshake-complete fold is forwarded unmodified:
folding `processInstruction` over post-handshake instructions only appends
to the instruction log and leaves every other field unchanged. -/
theorem processInstruction_fold_forward (instrs : List (String × List String)) :
    ∀ t : Tunnel, t.handshakeComplete = true →
      (instrs.foldl (fun t i => processInstruction t i.1 i.2) t) =
        { t with instructions := t.instructions ++ instrs } := by
  induction instrs with
  | nil => intro t _; simp
  | cons i rest ih =>
      intro t hh
      have hstep : processInstruction t i.1 i.2 =
          { t with instructions := t.instructions ++ [i] } := by
        simp [processInstruction, hh]
      simp only [List.foldl_cons, hstep]
      rw [ih _ (by simp [hh])]
      simp

/-- Evaluating `formatBody` at a positive index appends the comma-prefixed encodings of
the remaining elements. -/
theorem formatBody_pos (es : List String) :
    ∀ (i : Nat) (acc : String),
      formatBody es (i + 1) acc = acc ++ joinTail (es.map encElement) := by
  induction es with
  | nil =>
      intro i acc
      simp [formatBody, joinTail, String.append_empty]
  | cons v rest ih =>
      intro i acc
      simp only [formatBody, List.map_cons, joinTail, Nat.succ_pos, if_pos,
        Nat.lt_irrefl, gt_iff_lt, Nat.zero_lt_succ, ih (i + 1)]
      simp [encElement, String.append_assoc]

/-- Applying `joinComma` to a nonempty list is its head followed by the comma join
tail of the rest. -/
theorem joinComma_cons (x : String) (xs : List String) :
    joinComma (x :: xs) = x ++ joinTail xs := by
  induction xs generalizing x with
  | nil => simp [joinComma, joinTail, String.append_empty]
  | cons y ys ih =>
      simp [joinComma, joinTail, ih y, String.append_assoc]

/-- C1. The encoder produces exactly the concatenation of
`<length>.<value>` for each element in order (length the element's
character count), elements joined by `,`, terminated by `;`. -/
theorem C1_formatInstruction_encodes (elements : List String) :
    formatInstruction elements = joinComma (elements.map encElement) ++ ";" := by
  cases elements with
  | nil => rfl
  | cons v rest =>
      simp only [formatInstruction, formatBody, List.map_cons, joinComma_cons,
        formatBody_pos]
      simp [encElement, String.empty_append, String.append_assoc]

/-- C4. In every tunnel state other than `OPEN` and `UNSTABLE` (i.e.
`CONNECTING` or `CLOSED`), `sendMessage` performs no transport write (it is
a complete no-op); and with zero elements it performs no transport write in
any state. -/
theorem C4_sendMessage_noop (t : Tunnel) (elements : List String) :
    ((t.state = TState.CONNECTING ∨ t.state = TState.CLOSED) →
      sendMessage t elements = t) ∧
    sendMessage t [] = t := by
  constructor
  · intro h
    have hc : isConnected t = false := by
      rcases h with h | h <;> simp [isConnected, h]
    simp [sendMessage, hc]
  · by_cases hc : isConnected t <;> simp [sendMessage, hc]

/-- Witness for C4 at a freshly connecting tunnel and a mouse instruction. -/
theorem C4_sendMessage_noop_witness :
    sendMessage (connect (initialTunnel emptySettings)) ["mouse", "10", "20"] =
      connect (initialTunnel emptySettings) ∧
    sendMessage (connect (initialTunnel emptySettings)) [] =
      connect (initialTunnel emptySettings) :=
  ⟨(C4_sendMessage_noop (connect (initialTunnel emptySettings)) ["mouse", "10", "20"]).1
      (Or.inl rfl),
    (C4_sendMessage_noop (connect (initialTunnel emptySettings)) ["mouse", "10", "20"]).2⟩

/-- C10. After handshake completion an inbound `error` instruction is not
fatal: it is forwarded unmodified to the consumer's instruction sink, and
nothing else — no close, no error callback — happens. -/
theorem C10_posthandshake_error_forwarded (t : Tunnel) (params : List String)
    (hh : t.handshakeComplete = true) :
    processInstruction t "error" params =
      { t with instructions := t.instructions ++ [("error", params)] } := by
  simp [processInstruction, hh]

/-- Witness for C10 at a concrete post-handshake tunnel. -/
theorem C10_posthandshake_error_forwarded_witness :
    processInstruction openTunnel "error" ["oops", "519"] =
      { openTunnel with
          instructions := openTunnel.instructions ++ [("error", ["oops", "519"])] } :=
  C10_posthandshake_error_forwarded openTunnel ["oops", "519"] rfl

/-- C2. On an `args` instruction before handshake completion the negotiator
writes exactly, in sequence: `size` (width, height, DPI from settings), an
empty `audio`, an empty `video`, `image` with the fixed mimetype list, and
`connect` positionally aligned to the received names — the settings value
for known names, the empty string otherwise, `VERSION_`-prefixed names
echoed verbatim; and for names `[hostname, port, width]` with settings
`hostname = localhost, port = 3389, width = 1024` the connect arguments are
`[localhost, 3389, 1024]`. -/
theorem C2_handshake_reply (t : Tunnel) (names : List String)
    (hh : t.handshakeComplete = false) (hc : t.channel = true) :
    ((processInstruction t "args" names).writes = t.writes ++
      [ formatInstruction ["size", toString (jsOrNat t.settings.width 1024),
          toString (jsOrNat t.settings.height 768),
          toString (jsOrNat t.settings.dpi 96)],
        formatInstruction ["audio"],
        formatInstruction ["video"],
        formatInstruction ["image", "image/png", "image/jpeg", "image/webp"],
        formatInstruction ("connect" :: names.map (connectValue t.settings)) ]) ∧
    (∀ n ∈ names, jsStartsWith n "VERSION_" = true → connectValue t.settings n = n) ∧
    ["hostname", "port", "width"].map (connectValue demoSettings) =
      ["localhost", "3389", "1024"] := by
  refine ⟨?_, ?_, by decide⟩
  · simp [processInstruction, sendHandshakeReply, sendRaw, hh, hc]
  · intro n _ hv
    simp [connectValue, hv]

/-- Witness for C2 at the spec's worked example. -/
theorem C2_handshake_reply_witness :
    (processInstruction { initialTunnel demoSettings with channel := true }
        "args" ["hostname", "port", "width"]).writes =
      [ formatInstruction ["size", "1024", "768", "96"],
        formatInstruction ["audio"],
        formatInstruction ["video"],
        formatInstruction ["image", "image/png", "image/jpeg", "image/webp"],
        formatInstruction ["connect", "localhost", "3389", "1024"] ] := by
  have h := C2_handshake_reply { initialTunnel demoSettings with channel := true }
    ["hostname", "port", "width"] rfl rfl
  rw [h.1]
  decide

/-- C9. With absent settings fields the handshake substitutes built-in
defaults: `size` uses 1024×768 at 96 DPI; `connect` uses hostname
`localhost`, port `3389`, security `any`, resize-method `display-update`,
client-name `cockpit-guacamole`; the transport endpoint port defaults to
4822; and `ignore-cert` is `true` whenever the `ignoreCert` setting is
anything other than the literal `false` (including absent). -/
theorem C9_handshake_defaults :
    ((connect (initialTunnel emptySettings)).endpointPort = some 4822) ∧
    ((processInstruction { initialTunnel emptySettings with channel := true }
        "args" ["hostname", "port", "security", "resize-method", "client-name"]).writes =
      [ formatInstruction ["size", "1024", "768", "96"],
        formatInstruction ["audio"],
        formatInstruction ["video"],
        formatInstruction ["image", "image/png", "image/jpeg", "image/webp"],
        formatInstruction ["connect", "localhost", "3389", "any",
          "display-update", "cockpit-guacamole"] ]) ∧
    (∀ s : ConnectionSettings, s.ignoreCert ≠ some false →
      connectValue s "ignore-cert" = "true") := by
  refine ⟨by decide, by decide, ?_⟩
  intro s h
  have hlook : (paramMap s).lookup "ignore-cert" =
      some (if s.ignoreCert = some false then "" else "true") := by
    simp [paramMap, List.lookup]
  simp [connectValue, jsStartsWith, hlook, h]

/-- Witness for C9's `ignore-cert` clause at the all-absent settings. -/
theorem C9_handshake_defaults_witness :
    connectValue emptySettings "ignore-cert" = "true" :=
  C9_handshake_defaults.2.2 emptySettings (by decide)

/-- C3 counterexample. The claim predicts that an `error` instruction whose
code argument parses as the number `X` closes the tunnel with exactly status
`X`; but for the parsable code string `"0"` the code falls back to the
generic server-error code 0x0200 instead of closing with status 0. -/
theorem C3_counterexample :
    jsParseInt (some "0") = some 0 ∧
    (processInstruction (connect (initialTunnel emptySettings))
        "error" ["boom", "0"]).closedStatus = some ⟨SERVER_ERROR_CODE, "boom"⟩ ∧
    SERVER_ERROR_CODE ≠ 0 := by
  refine ⟨by decide, by decide, by decide⟩

/-- C3 (amended). Before `ready`, an `error` instruction whose code argument
parses as a nonzero number `X` closes the tunnel with exactly status `X` and
leaves the ready-derived session identifier unset; the generic server-error
code is used exactly when the code argument parses as `0` or does not parse
as a number at all. -/
theorem C3_handshake_error_closes (t : Tunnel) (params : List String) (X : Int)
    (hh : t.handshakeComplete = false) (hs : t.state ≠ TState.CLOSED) :
    (jsParseInt (params[1]?) = some X → X ≠ 0 →
      (processInstruction t "error" params).closedStatus =
        some ⟨X, errorStatusMessage params⟩ ∧
      (processInstruction t "error" params).state = TState.CLOSED ∧
      (processInstruction t "error" params).uuid = t.uuid) ∧
    (jsParseInt (params[1]?) = none ∨ jsParseInt (params[1]?) = some 0 →
      (processInstruction t "error" params).closedStatus =
        some ⟨SERVER_ERROR_CODE, errorStatusMessage params⟩) := by
  have hpi : processInstruction t "error" params =
      closeTunnel t ⟨errorStatusCode params, errorStatusMessage params⟩ := by
    simp [processInstruction, hh]
  have hclose : ∀ st : Status,
      (closeTunnel t st).closedStatus = some st ∧
      (closeTunnel t st).state = TState.CLOSED ∧
      (closeTunnel t st).uuid = t.uuid := by
    intro st
    have hs' : ¬(TState.CLOSED = t.state) := fun h => hs h.symm
    by_cases he : st.isError <;> by_cases hch : t.channel <;>
      simp [closeTunnel, clearTimers, setState, he, hch, hs, hs']
  constructor
  · intro hp hX
    have hc : errorStatusCode params = X := by
      simp [errorStatusCode, hp, hX]
    rw [hpi, hc]
    exact hclose _
  · intro hp
    have hc : errorStatusCode params = SERVER_ERROR_CODE := by
      rcases hp with hp | hp <;> simp [errorStatusCode, hp]
    rw [hpi, hc]
    exact (hclose _).1

/-- Witness for C3 (amended) at a concrete connecting tunnel and the error
codes `"519"` (parsable, nonzero) and `"bogus"` (unparsable). -/
theorem C3_handshake_error_closes_witness :
    (processInstruction (connect (initialTunnel emptySettings))
        "error" ["denied", "519"]).closedStatus = some ⟨519, "denied"⟩ ∧
    (processInstruction (connect (initialTunnel emptySettings))
        "error" ["denied", "519"]).state = TState.CLOSED ∧
    (processInstruction (connect (initialTunnel emptySettings))
        "error" ["denied", "519"]).uuid = none ∧
    (processInstruction (connect (initialTunnel emptySettings))
        "error" ["denied", "bogus"]).closedStatus =
      some ⟨SERVER_ERROR_CODE, "denied"⟩ := by
  have h1 := (C3_handshake_error_closes (connect (initialTunnel emptySettings))
    ["denied", "519"] 519 rfl (by decide)).1 (by decide) (by decide)
  have h2 := (C3_handshake_error_closes (connect (initialTunnel emptySettings))
    ["denied", "bogus"] 0 rfl (by decide)).2 (Or.inl (by decide))
  exact ⟨by rw [h1.1]; decide, h1.2.1, by rw [h1.2.2]; decide, by rw [h2]; decide⟩

/-- C8. When the transport reports closure: a truthy problem/reason on a
not-yet-closed tunnel gives a server-error closure with the error callback
fired; no problem gives a clean success closure, signalling the state change
only with no error callback; on an already-closed tunnel nothing is
signalled at all. -/
theorem C8_transport_close (t : Tunnel) (problem reason : Option String) :
    (optTruthy (jsOrOpt problem reason) = true → t.state ≠ TState.CLOSED →
      (onClose t problem reason).closedStatus =
        some ⟨SERVER_ERROR_CODE,
          "Connection closed: " ++ (jsOrOpt problem reason).getD ""⟩ ∧
      (onClose t problem reason).errors = t.errors ++
        [⟨SERVER_ERROR_CODE,
          "Connection closed: " ++ (jsOrOpt problem reason).getD ""⟩] ∧
      (onClose t problem reason).state = TState.CLOSED) ∧
    (optTruthy (jsOrOpt problem reason) = false → t.state ≠ TState.CLOSED →
      (onClose t problem reason).closedStatus = some ⟨SUCCESS_CODE, ""⟩ ∧
      (onClose t problem reason).errors = t.errors ∧
      (onClose t problem reason).state = TState.CLOSED ∧
      (onClose t problem reason).states = t.states ++ [TState.CLOSED]) ∧
    (t.state = TState.CLOSED →
      (onClose t problem reason).errors = t.errors ∧
      (onClose t problem reason).states = t.states) := by
  refine ⟨?_, ?_, ?_⟩
  · intro hp hs
    have hs' : ¬(TState.CLOSED = t.state) := fun h => hs h.symm
    by_cases hch : t.channel <;>
      simp [onClose, hp, closeTunnel, clearTimers, setState, Status.isError,
        SERVER_ERROR_CODE, hs, hs', hch]
  · intro hp hs
    have hs' : ¬(TState.CLOSED = t.state) := fun h => hs h.symm
    by_cases hch : t.channel <;>
      simp [onClose, hp, closeTunnel, clearTimers, setState, Status.isError,
        SUCCESS_CODE, hs, hs', hch]
  · intro hs
    by_cases hp : optTruthy (jsOrOpt problem reason) <;>
      simp [onClose, hp, closeTunnel, clearTimers, hs]

/-- Witness for C8: a problem-carrying close on a connecting tunnel is a
server-error closure; a clean close on another is a success closure. -/
theorem C8_transport_close_witness :
    (onClose (connect (initialTunnel emptySettings))
        (some "terminated") none).closedStatus =
      some ⟨SERVER_ERROR_CODE, "Connection closed: terminated"⟩ ∧
    (onClose (connect (initialTunnel emptySettings)) none none).errors = [] := by
  have h1 := ((C8_transport_close (connect (initialTunnel emptySettings))
    (some "terminated") none).1 (by decide) (by decide)).1
  have h2 := (((C8_transport_close (connect (initialTunnel emptySettings))
    none none).2.1 (by decide) (by decide)).2).1
  exact ⟨by rw [h1]; decide, by rw [h2]; decide⟩

/-- In the `CLOSED` state with the channel closed and both timers disarmed,
every event is a complete no-op. -/
theorem step_closed_fix (t : Tunnel) (e : Event) (hs : t.state = TState.CLOSED)
    (hc : t.channel = false) (hr : t.receiveTimerArmed = false)
    (hu : t.unstableTimerArmed = false) : step t e = t := by
  rcases t with ⟨se, st, hsk, uu, ch, rt, ut, ep, cs, w, er, sts, ins⟩
  simp only at hs hc hr hu
  subst hs hc hr hu
  cases e with
  | message instrs => simp [step]
  | chanClose problem reason => simp [step]
  | unstableFire => simp [step]
  | receiveFire => simp [step]
  | sendMsg elements => simp [step, sendMessage, isConnected]
  | doDisconnect => simp [step, disconnect, isConnected, closeTunnel, clearTimers]

/-- In the `CLOSED` state with the channel closed and both timers disarmed,
every event sequence is a complete no-op. -/
theorem run_closed_fix (es : List Event) (t : Tunnel)
    (hs : t.state = TState.CLOSED) (hc : t.channel = false)
    (hr : t.receiveTimerArmed = false) (hu : t.unstableTimerArmed = false) :
    run t es = t := by
  induction es with
  | nil => rfl
  | cons e rest ih =>
      show run (step t e) rest = t
      rw [step_closed_fix t e hs hc hr hu]
      exact ih

/-- C5. Closure is idempotent: once `CLOSED` (channel released, timers
cancelled — what `closeTunnel` guarantees), every further close request and
every further inbound event, and any sequence of them, is a complete no-op:
no state change, no transport write, no callback invocation — so the error
and state-change-to-`CLOSED` callbacks fire at most once per instance. -/
theorem C5_closed_idempotent (t : Tunnel) (hs : t.state = TState.CLOSED)
    (hc : t.channel = false) (hr : t.receiveTimerArmed = false)
    (hu : t.unstableTimerArmed = false) :
    (∀ e, step t e = t) ∧ (∀ es, run t es = t) :=
  ⟨fun e => step_closed_fix t e hs hc hr hu,
    fun es => run_closed_fix es t hs hc hr hu⟩

/-- Witness for C5 at a concrete closed tunnel: a repeated disconnect and a
burst of late inbound events change nothing. -/
theorem C5_closed_idempotent_witness :
    step closedTunnel .doDisconnect = closedTunnel ∧
    run closedTunnel
      [.message [("sync", ["1"])], .receiveFire, .unstableFire,
        .chanClose (some "again") none] = closedTunnel :=
  ⟨(C5_closed_idempotent closedTunnel rfl rfl rfl rfl).1 _,
    (C5_closed_idempotent closedTunnel rfl rfl rfl rfl).2 _⟩

/-- C6. After handshake completion, when the armed receive timeout fires
with no inbound data having arrived, the tunnel is force-closed to `CLOSED`
with the distinguished upstream-timeout error status, both timers are
cancelled, and no further state or error callbacks fire afterward. -/
theorem C6_receive_timeout_closes (t : Tunnel)
    (hh : t.handshakeComplete = true) (ha : t.receiveTimerArmed = true)
    (hs : t.state ≠ TState.CLOSED) :
    (step t .receiveFire).state = TState.CLOSED ∧
    (step t .receiveFire).closedStatus =
      some ⟨UPSTREAM_TIMEOUT_CODE, "Server timeout."⟩ ∧
    (step t .receiveFire).errors =
      t.errors ++ [⟨UPSTREAM_TIMEOUT_CODE, "Server timeout."⟩] ∧
    (step t .receiveFire).receiveTimerArmed = false ∧
    (step t .receiveFire).unstableTimerArmed = false ∧
    ∀ es, run (step t .receiveFire) es = step t .receiveFire := by
  have hs' : ¬(TState.CLOSED = t.state) := fun h => hs h.symm
  have he : (⟨UPSTREAM_TIMEOUT_CODE, "Server timeout."⟩ : Status).isError = true := by
    decide
  have key : (step t .receiveFire).state = TState.CLOSED ∧
      (step t .receiveFire).closedStatus =
        some ⟨UPSTREAM_TIMEOUT_CODE, "Server timeout."⟩ ∧
      (step t .receiveFire).errors =
        t.errors ++ [⟨UPSTREAM_TIMEOUT_CODE, "Server timeout."⟩] ∧
      (step t .receiveFire).receiveTimerArmed = false ∧
      (step t .receiveFire).unstableTimerArmed = false ∧
      (step t .receiveFire).channel = false := by
    by_cases hch : t.channel <;>
      simp [step, ha, closeTunnel, clearTimers, setState, he, hs, hs', hch]
  exact ⟨key.1, key.2.1, key.2.2.1, key.2.2.2.1, key.2.2.2.2.1,
    fun es => run_closed_fix es _ key.1 key.2.2.2.2.2 key.2.2.2.1 key.2.2.2.2.1⟩

/-- Witness for C6 at a concrete post-handshake open tunnel, with a late
disconnect request and inbound delivery after the forced closure. -/
theorem C6_receive_timeout_closes_witness :
    (step openTunnel .receiveFire).state = TState.CLOSED ∧
    (step openTunnel .receiveFire).closedStatus =
      some ⟨UPSTREAM_TIMEOUT_CODE, "Server timeout."⟩ ∧
    (step openTunnel .receiveFire).errors =
      openTunnel.errors ++ [⟨UPSTREAM_TIMEOUT_CODE, "Server timeout."⟩] ∧
    (step openTunnel .receiveFire).receiveTimerArmed = false ∧
    (step openTunnel .receiveFire).unstableTimerArmed = false ∧
    run (step openTunnel .receiveFire) [.doDisconnect, .message [("sync", ["1"])]] =
      step openTunnel .receiveFire := by
  have h := C6_receive_timeout_closes openTunnel rfl rfl (by decide)
  exact ⟨h.1, h.2.1, h.2.2.1, h.2.2.2.1, h.2.2.2.2.1, h.2.2.2.2.2 _⟩

/-- C7. After handshake completion, the armed unstable timer firing moves
`OPEN` to `UNSTABLE` without closing the connection (channel still open, no
error, no close status); and any subsequent inbound delivery immediately
restores `OPEN` and re-arms both timers. -/
theorem C7_unstable_then_recover (t : Tunnel)
    (hh : t.handshakeComplete = true) (hs : t.state = TState.OPEN)
    (hu : t.unstableTimerArmed = true) (hc : t.channel = true) :
    (step t .unstableFire).state = TState.UNSTABLE ∧
    (step t .unstableFire).errors = t.errors ∧
    (step t .unstableFire).closedStatus = t.closedStatus ∧
    (step t .unstableFire).channel = true ∧
    ∀ instrs,
      (step (step t .unstableFire) (.message instrs)).state = TState.OPEN ∧
      (step (step t .unstableFire) (.message instrs)).receiveTimerArmed = true ∧
      (step (step t .unstableFire) (.message instrs)).unstableTimerArmed = true := by
  have hstep : step t .unstableFire =
      { t with unstableTimerArmed := false, state := TState.UNSTABLE,
               states := t.states ++ [TState.UNSTABLE] } := by
    simp [step, hu, setState, hs]
  refine ⟨by rw [hstep], by rw [hstep], by rw [hstep], by rw [hstep]; exact hc, ?_⟩
  intro instrs
  rw [hstep]
  simp only [step, hc, if_true, onMessage, hh, if_pos]
  rw [processInstruction_fold_forward instrs _ (by simp [resetTimers, setState, isConnected, hh])]
  simp [resetTimers, setState, isConnected]

/-- Witness for C7 at a concrete post-handshake open tunnel and a concrete
subsequent inbound delivery. -/
theorem C7_unstable_then_recover_witness :
    (step openTunnel .unstableFire).state = TState.UNSTABLE ∧
    (step openTunnel .unstableFire).errors = openTunnel.errors ∧
    (step openTunnel .unstableFire).closedStatus = openTunnel.closedStatus ∧
    (step openTunnel .unstableFire).channel = true ∧
    (step (step openTunnel .unstableFire) (.message [("sync", ["42"])])).state =
      TState.OPEN ∧
    (step (step openTunnel .unstableFire)
      (.message [("sync", ["42"])])).receiveTimerArmed = true ∧
    (step (step openTunnel .unstableFire)
      (.message [("sync", ["42"])])).unstableTimerArmed = true := by
  have h := C7_unstable_then_recover openTunnel rfl rfl rfl rfl
  have h5 := h.2.2.2.2 [("sync", ["42"])]
  exact ⟨h.1, h.2.1, h.2.2.1, h.2.2.2.1, h5.1, h5.2.1, h5.2.2⟩

end Theorems

end Guac
